import Mathlib

/-!
Shallow embedding of `src/geospatialimpactmonitor.py` (the Geospatial Impact
Monitor).  Pure Python values and dict-based GeoJSON property maps are
modelled by `PVal` / `Props`; the shapely geometry library (an external
dependency of the program) is modelled abstractly: each parsed geometry
carries the Boolean answers shapely would give to the validity/emptiness
tests and to the point-containment / buffer-intersection / bounding-box
queries the program performs.  Python floats that the program compares
(`0.1`, percent values) are modelled as exact rationals.  Network calls are
modelled by passing each endpoint's (possible) response as an argument.
-/

namespace GeoMonitor

/-- A Python/JSON scalar value as it appears in a feature's `properties`
dict: a string, a number (modelled as an exact rational), or `None`. -/
inductive PVal where
  | str (s : String)
  | num (q : ℚ)
  | null
deriving DecidableEq

/-- A Python dict with string keys, as used for `feature['properties']`.
Lookup reads the first binding of a key. -/
abbrev Props := List (String × PVal)

/-- Python `props.get(k, d)`: the stored value, or the default `d` when the
key is absent. -/
def pgetD (p : Props) (k : String) (d : PVal) : PVal :=
  match p.lookup k with
  | some v => v
  | Option.none => d

/-- Python `props.get(k)`: the stored value, or `None` when absent. -/
def pget (p : Props) (k : String) : PVal :=
  pgetD p k PVal.null

/-- Python `props[k] = v`: replace the (first) binding of `k`, or append a
new binding when `k` is absent. -/
def pset : Props → String → PVal → Props
  | [], k, v => [(k, v)]
  | (k', v') :: rest, k, v =>
      if k' = k then (k, v) :: rest else (k', v') :: pset rest k v

/-- Python truthiness of a scalar: `None`, `0` and `""` are falsy. -/
def truthy : PVal → Bool
  | .str s => !(s == "")
  | .num q => !(q == 0)
  | .null => false

/-- Python f-string rendering of a scalar (`f"{v}"`). -/
def fstr : PVal → String
  | .str s => s
  | .num q => toString q
  | .null => "None"

/-- Python `a or b`: `a` when truthy, otherwise `b`. -/
def orElseV (a b : PVal) : PVal :=
  if truthy a then a else b

/-- Python `(props.get(k, 0) or 0)` evaluated as a number: a numeric value
is kept, while a missing key, `None`, or `0` all yield `0`.  (The program
only ever applies this to numeric-or-null percent fields.) -/
def numOrZero (v : PVal) : ℚ :=
  match v with
  | .num q => q
  | _ => 0

/-- The `SEVERITY_LEVELS` table of the source. -/
def SEVERITY_LEVELS : List (String × ℕ) :=
  [("Extreme", 4), ("Severe", 3), ("Moderate", 2), ("Minor", 1), ("Unknown", 0)]

/-- The `LOW_PRIORITY_EVENTS` list of the source. -/
def LOW_PRIORITY_EVENTS : List String :=
  ["Special Weather Statement", "Air Quality Alert", "Beach Hazards Statement",
   "Rip Current Statement", "Marine Weather Statement", "Hydrologic Outlook",
   "Short Term Forecast", "Hazardous Weather Outlook"]

/-- `get_severity_rank`: a falsy value ranks 0; otherwise look the string up
in `SEVERITY_LEVELS` with default 0 (a non-string key is never found). -/
def get_severity_rank (v : PVal) : ℕ :=
  if truthy v = false then 0
  else
    match v with
    | .str s => (SEVERITY_LEVELS.lookup s).getD 0
    | _ => 0

/-- Python `event in LOW_PRIORITY_EVENTS` (a non-string value is never a
member of a list of strings). -/
def eventInLowPriority : PVal → Bool
  | .str s => LOW_PRIORITY_EVENTS.contains s
  | _ => false

/-- `passes_severity_threshold(alert_props, min_severity_rank,
exclude_low_priority)` of the source. -/
def passes_severity_threshold (alert_props : Props) (min_severity_rank : ℕ)
    (exclude_low_priority : Bool) : Bool :=
  let severity := pgetD alert_props "severity" (.str "Unknown")
  let event := pgetD alert_props "event" (.str "")
  if get_severity_rank severity < min_severity_rank then false
  else if exclude_low_priority && eventInLowPriority event then false
  else true

/-- The geometric predicates of a shapely geometry object that the program
queries for a point, modelled abstractly.  Arguments are (lat, lon).
`containsP lat lon` models `poly.contains(Point(lon, lat))`;
`intersectsBuf lat lon` models `poly.intersects(Point(lon, lat).buffer(0.001))`;
`bboxContains lat lon` models the STRtree candidate test
(`tree.query(Point(lon, lat))` returns the polygons whose bounding box
contains the point). -/
structure ZonePred where
  containsP : ℚ → ℚ → Bool
  intersectsBuf : ℚ → ℚ → Bool
  bboxContains : ℚ → ℚ → Bool

/-- A shapely geometry object: its `is_valid` / `is_empty` flags and its
point predicates. -/
structure Geom where
  isValid : Bool
  isEmpty : Bool
  pred : ZonePred

/-- The geometry slot of a raw GeoJSON feature.
`none` models `feature['geometry'] is None`; `noCoords` models a geometry
dict whose `type`/`coordinates` payload is missing or empty; `bad` models a
geometry on which processing (`shape`/`make_valid`) raises; `parsed g rep`
models a geometry that `shape` parses to `g`, with `rep` the result
`make_valid(g)` would give. -/
inductive RawGeometry where
  | none
  | noCoords
  | bad
  | parsed (g : Geom) (rep : Geom)

/-- A raw GeoJSON feature: geometry plus properties. -/
structure Feature where
  geometry : RawGeometry
  properties : Props

/-- An entry of the `weather_polys` list built by `run_impact_analysis`. -/
structure WZone where
  pred : ZonePred
  desc : String
  severity : PVal
  raw_props : Props

/-- An entry of the `outage_polys` / `earthquake_polys` lists: a polygon
with its description string. -/
structure Zone where
  pred : ZonePred
  desc : String

/-- The `geom_stats` dict of `run_impact_analysis`. -/
structure GeomStats where
  total_features : ℕ
  valid_polygons : ℕ
  null_geometry : ℕ
  parse_errors : ℕ
deriving DecidableEq

/-- The `filter_stats` dict of `run_impact_analysis`. -/
structure FilterStats where
  total_alerts : ℕ
  passed_filter : ℕ
  filtered_out : ℕ
deriving DecidableEq

/-- `event_name = (props.get('event') or props.get('prod_type') or
props.get('phenomena', 'WX'))` of the source. -/
def event_name (props : Props) : PVal :=
  orElseV (pget props "event")
    (orElseV (pget props "prod_type") (pgetD props "phenomena" (.str "WX")))

/-- The `desc_full` string built for a weather polygon: the event name with
severity, and urgency when it is truthy and not `"Unknown"`. -/
def descFull (props : Props) : String :=
  let ev := fstr (event_name props)
  let sev := fstr (pgetD props "severity" (.str "Unknown"))
  let urg := pgetD props "urgency" (.str "")
  if truthy urg && !(urg == PVal.str "Unknown") then
    ev ++ " (" ++ sev ++ "/" ++ fstr urg ++ ")"
  else
    ev ++ " (" ++ sev ++ ")"

/-- How the weather polygon-building pass of `run_impact_analysis`
disposes of one feature: counted as null geometry, dropped by the severity
filter, kept as a valid polygon, or counted as a parse error. -/
inductive FeatOutcome where
  | nullGeom
  | filteredOut
  | valid (z : WZone)
  | parseError

/-- One iteration of the weather polygon-building loop (source lines
456-509): null/empty geometry is counted first; the severity filter runs
before geometry parsing; then the parsed geometry is repaired with
`make_valid` when invalid, and kept only when valid and non-empty. -/
def classifyFeature (min_severity_rank : ℕ) (exclude_low_priority : Bool)
    (f : Feature) : FeatOutcome :=
  match f.geometry with
  | .none => .nullGeom
  | .noCoords => .nullGeom
  | .bad =>
      if passes_severity_threshold f.properties min_severity_rank exclude_low_priority then
        .parseError
      else .filteredOut
  | .parsed g rep =>
      if passes_severity_threshold f.properties min_severity_rank exclude_low_priority then
        let poly := if g.isValid then g else rep
        if poly.isValid && !poly.isEmpty then
          .valid { pred := poly.pred
                   desc := descFull f.properties
                   severity := pgetD f.properties "severity" (.str "Unknown")
                   raw_props := f.properties }
        else .parseError
      else .filteredOut

/-- The weather polygon-building pass: returns the `weather_polys` list (in
input order) together with `geom_stats` and `filter_stats`.
`total_features` ends up equal to the length of the input, as in the source
where it is initialised to `len(weather_features)` up front. -/
def buildWeatherPolys (min_severity_rank : ℕ) (exclude_low_priority : Bool) :
    List Feature → List WZone × GeomStats × FilterStats
  | [] => ([], ⟨0, 0, 0, 0⟩, ⟨0, 0, 0⟩)
  | f :: rest =>
      let r := buildWeatherPolys min_severity_rank exclude_low_priority rest
      match classifyFeature min_severity_rank exclude_low_priority f with
      | .nullGeom =>
          (r.1,
           { r.2.1 with total_features := r.2.1.total_features + 1
                        null_geometry := r.2.1.null_geometry + 1 },
           r.2.2)
      | .filteredOut =>
          (r.1,
           { r.2.1 with total_features := r.2.1.total_features + 1 },
           { r.2.2 with total_alerts := r.2.2.total_alerts + 1
                        filtered_out := r.2.2.filtered_out + 1 })
      | .valid z =>
          (z :: r.1,
           { r.2.1 with total_features := r.2.1.total_features + 1
                        valid_polygons := r.2.1.valid_polygons + 1 },
           { r.2.2 with total_alerts := r.2.2.total_alerts + 1
                        passed_filter := r.2.2.passed_filter + 1 })
      | .parseError =>
          (r.1,
           { r.2.1 with total_features := r.2.1.total_features + 1
                        parse_errors := r.2.1.parse_errors + 1 },
           { r.2.2 with total_alerts := r.2.2.total_alerts + 1
                        passed_filter := r.2.2.passed_filter + 1 })

/-- The outage polygon-building pass (source lines 516-531): a feature with
present, non-empty geometry is parsed, repaired when invalid, and kept when
valid and non-empty, with a `"Power Outage: ..% - .."` description. -/
def buildOutagePolys : List Feature → List Zone
  | [] => []
  | f :: rest =>
      let r := buildOutagePolys rest
      match f.geometry with
      | .parsed g rep =>
          let poly := if g.isValid then g else rep
          if poly.isValid && !poly.isEmpty then
            { pred := poly.pred
              desc := "Power Outage: " ++ fstr (pgetD f.properties "Percent_Out" (.str "N/A"))
                        ++ "% - " ++ fstr (pgetD f.properties "NAME" (.str "Unknown")) } :: r
          else r
      | _ => r

/-- The fallback-activation decision of `run_impact_analysis` (source lines
558-560): `enable_point_fallback and valid_polygons < total_features * 0.1
and total_features > 0`, with the float `0.1` modelled exactly. -/
def usePointFallback (enable_point_fallback : Bool) (gs : GeomStats) : Bool :=
  enable_point_fallback &&
    decide ((gs.valid_polygons : ℚ) < (gs.total_features : ℚ) * (1 / 10)) &&
    decide (0 < gs.total_features)

/-- The alert string formatted by `check_point_alerts_nws`:
`"{event} ({severity}/{urgency})"` when urgency is truthy and not
`"Unknown"`, else `"{event} ({severity})"`. -/
def fmtAlert (props : Props) : String :=
  let ev := fstr (pgetD props "event" (.str "Weather Alert"))
  let sev := fstr (pgetD props "severity" (.str "Unknown"))
  let urg := pgetD props "urgency" (.str "")
  if truthy urg && !(urg == PVal.str "Unknown") then
    ev ++ " (" ++ sev ++ "/" ++ fstr urg ++ ")"
  else
    ev ++ " (" ++ sev ++ ")"

/-- `check_point_alerts_nws`, with the HTTP exchange modelled by its
response: `Option.none` models a raised exception (network failure), and
`some (status, features)` a reply.  Any failure or non-200 status yields
`[]`; a 200 reply yields the severity-filtered, formatted alert strings. -/
def check_point_alerts_nws (resp : Option (ℕ × List Feature))
    (min_severity_rank : ℕ) (exclude_low_priority : Bool) : List String :=
  match resp with
  | Option.none => []
  | some (status, feats) =>
      if status = 200 then
        (feats.filter (fun f =>
          passes_severity_threshold f.properties min_severity_rank exclude_low_priority)).map
          (fun f => fmtAlert f.properties)
      else []

/-- The weather matches collected for a point (source lines 585-594): the
STRtree candidates (bounding-box test) that contain the point or whose
polygon intersects the 0.001-degree buffer around it. -/
def weatherHazards (zones : List WZone) (lat lon : ℚ) : List String :=
  (zones.filter (fun z =>
    z.pred.bboxContains lat lon &&
      (z.pred.containsP lat lon || z.pred.intersectsBuf lat lon))).map (fun z => z.desc)

/-- The outage/earthquake matches collected for a point (source lines
597-618): the STRtree candidates that contain the point (no buffer test). -/
def containHazards (zones : List Zone) (lat lon : ℚ) : List String :=
  (zones.filter (fun z =>
    z.pred.bboxContains lat lon && z.pred.containsP lat lon)).map (fun z => z.desc)

/-- All polygon-phase hazard descriptions for a point, in collection order:
weather, then outages, then earthquakes. -/
def polygonHazards (w : List WZone) (o q : List Zone) (lat lon : ℚ) : List String :=
  weatherHazards w lat lon ++ containHazards o lat lon ++ containHazards q lat lon

/-- Python `sorted(set(hazards))`: the distinct hazard strings in ascending
lexicographic order. -/
def sortedDedupHaz (l : List String) : List String :=
  l.dedup.mergeSort (fun a b => decide (a ≤ b))

/-- `" | ".join(sorted(set(hazards))) if hazards else "None"`. -/
def joinHaz (l : List String) : String :=
  if l = [] then "None" else " | ".intercalate (sortedDedupHaz l)

/-- The full hazard list a resolved point ends up with: the polygon-phase
matches, extended by the point-API response exactly when the fallback is
active and no polygon matched. -/
def collectedHazards (w : List WZone) (o q : List Zone) (uf : Bool)
    (orc : ℚ → ℚ → List String) (lat lon : ℚ) : List String :=
  let ph := polygonHazards w o q lat lon
  if uf && ph.isEmpty then ph ++ orc lat lon else ph

/-- One row of the geolocated input DataFrame: `row.get('lat')` etc., with
`Option.none` modelling a null (failed geolocation). -/
structure PointRow where
  ip : Option String
  lat : Option ℚ
  lon : Option ℚ
  city : Option String
  region : Option String
deriving DecidableEq

/-- One per-point result record appended by `run_impact_analysis`. -/
structure ResultRec where
  ip : Option String
  lat : Option ℚ
  lon : Option ℚ
  city : Option String
  region : Option String
  is_at_risk : Bool
  risk_details : String
  check_method : String
deriving DecidableEq

/-- The body of the per-point loop of `run_impact_analysis` (source lines
575-642).  `orc lat lon` models the list returned by
`check_point_alerts_nws(lat, lon, ...)`.  The second component of the
result records whether the remote point query was issued for this point.
A point with an unresolved coordinate skips all matching and keeps its
null coordinates in the output record. -/
def analyzePoint (w : List WZone) (o q : List Zone) (uf : Bool)
    (orc : ℚ → ℚ → List String) (row : PointRow) : ResultRec × Bool :=
  match row.lat, row.lon with
  | some la, some lo =>
      let ph := polygonHazards w o q la lo
      if uf && ph.isEmpty then
        let pa := orc la lo
        ({ ip := row.ip, lat := row.lat, lon := row.lon
           city := row.city, region := row.region
           is_at_risk := !(ph ++ pa).isEmpty
           risk_details := joinHaz (ph ++ pa)
           check_method := if pa.isEmpty then "polygon" else "point-api" }, true)
      else
        ({ ip := row.ip, lat := row.lat, lon := row.lon
           city := row.city, region := row.region
           is_at_risk := !ph.isEmpty
           risk_details := joinHaz ph
           check_method := "polygon" }, false)
  | _, _ =>
      ({ ip := row.ip, lat := row.lat, lon := row.lon
         city := row.city, region := row.region
         is_at_risk := false
         risk_details := "None"
         check_method := "polygon" }, false)

/-- `run_impact_analysis`: builds the weather and outage polygon lists and
their statistics, decides the fallback policy once for the run, and maps the
per-point analysis over the rows.  Earthquake zones are passed in already
built, since their construction (buffering the USGS epicenter by 0.5
degrees and formatting a timestamped description) is an external shapely /
datetime computation; the per-point containment test applied to them is
embedded exactly.  Returns (results, geom_stats, filter_stats,
using_point_fallback). -/
def run_impact_analysis (rows : List PointRow)
    (weather_features outage_features : List Feature) (quake_zones : List Zone)
    (enable_point_fallback : Bool) (min_severity_rank : ℕ)
    (exclude_low_priority : Bool) (orc : ℚ → ℚ → List String) :
    List ResultRec × GeomStats × FilterStats × Bool :=
  let b := buildWeatherPolys min_severity_rank exclude_low_priority weather_features
  let ozones := buildOutagePolys outage_features
  let uf := usePointFallback enable_point_fallback b.2.1
  (rows.map (fun r => (analyzePoint b.1 ozones quake_zones uf orc r).1), b.2.1, b.2.2, uf)

/-- The HIFLD natural key `f"{props.get('NAME', '')}_{props.get('State', '')}"`. -/
def countyKeyH (props : Props) : String :=
  fstr (pgetD props "NAME" (.str "")) ++ "_" ++ fstr (pgetD props "State" (.str ""))

/-- The ODIN natural key `f"{props.get('county', '')}_{props.get('state', '')}"`. -/
def countyKeyO (props : Props) : String :=
  fstr (pgetD props "county" (.str "")) ++ "_" ++ fstr (pgetD props "state" (.str ""))

/-- One step of the HIFLD loop of `fetch_power_outages`: append the feature
unless its county key was already seen. -/
def addHifld (acc : List Feature × List String) (f : Feature) :
    List Feature × List String :=
  let key := countyKeyH f.properties
  if acc.2.contains key then acc
  else (acc.1 ++ [f], acc.2 ++ [key])

/-- The `Total_Out` value written when an ODIN record wins the percent
comparison: `props.get('customers_out', ex_props.get('Total_Out'))`. -/
def odinTotalOut (newProps exProps : Props) : PVal :=
  match newProps.lookup "customers_out" with
  | some v => v
  | Option.none => pget exProps "Total_Out"

/-- The inner scan of the ODIN loop: find the first stored feature whose
HIFLD key equals `key` and, when the new percent is strictly larger, write
the new percent and customer count into it; stop at the first key match. -/
def odinUpdate : List Feature → String → Props → List Feature
  | [], _, _ => []
  | ex :: rest, key, newProps =>
      if countyKeyH ex.properties = key then
        let exPct := numOrZero (pgetD ex.properties "Percent_Out" (.num 0))
        let newPct := numOrZero (pgetD newProps "percent_out" (.num 0))
        if exPct < newPct then
          let p := pset (pset ex.properties "Percent_Out" (.num newPct))
            "Total_Out" (odinTotalOut newProps ex.properties)
          { ex with properties := p } :: rest
        else ex :: rest
      else ex :: odinUpdate rest key newProps

/-- The normalisation applied to a first-seen ODIN feature: copy the ODIN
fields onto the HIFLD field names (`dict.get` with no default, so a missing
source field becomes `None`). -/
def odinNormalize (props : Props) : Props :=
  pset (pset (pset (pset props
    "NAME" (pget props "county"))
    "State" (pget props "state"))
    "Percent_Out" (pget props "percent_out"))
    "Total_Out" (pget props "customers_out")

/-- One step of the ODIN loop of `fetch_power_outages`: a feature whose key
was already seen merges into the stored record by `odinUpdate`; otherwise it
is normalised and appended. -/
def addOdin (acc : List Feature × List String) (f : Feature) :
    List Feature × List String :=
  let key := countyKeyO f.properties
  if acc.2.contains key then
    (odinUpdate acc.1 key f.properties, acc.2)
  else
    (acc.1 ++ [{ f with properties := odinNormalize f.properties }], acc.2 ++ [key])

/-- The merge core of `fetch_power_outages` (source lines 219-280), with
the two HTTP responses modelled as the two input feature lists (a failed or
non-200 fetch contributes `[]`). -/
def fetch_power_outages (hifld odin : List Feature) : List Feature :=
  (odin.foldl addOdin (hifld.foldl addHifld ([], []))).1

/-- A logical outage entity: county name, state, percent out, customers out. -/
structure OutageEntity where
  name : String
  state : String
  percent : ℚ
  customers : ℚ

/-- The natural key of an outage entity, as both sources compute it. -/
def entityKey (e : OutageEntity) : String :=
  e.name ++ "_" ++ e.state

/-- An outage entity rendered in the HIFLD response schema. -/
def renderHifld (e : OutageEntity) : Feature :=
  ⟨RawGeometry.none,
   [("NAME", .str e.name), ("State", .str e.state),
    ("Percent_Out", .num e.percent), ("Total_Out", .num e.customers)]⟩

/-- An outage entity rendered in the ODIN response schema. -/
def renderOdin (e : OutageEntity) : Feature :=
  ⟨RawGeometry.none,
   [("county", .str e.name), ("state", .str e.state),
    ("percent_out", .num e.percent), ("customers_out", .num e.customers)]⟩

/-- HIFLD-schema record: county Alpha, AR, 40 percent out. -/
def hifldAlpha40 : Feature :=
  ⟨RawGeometry.none,
   [("NAME", .str "Alpha"), ("State", .str "AR"),
    ("Percent_Out", .num 40), ("Total_Out", .num 100)]⟩

/-- HIFLD-schema record: county Alpha, AR, 65 percent out. -/
def hifldAlpha65 : Feature :=
  ⟨RawGeometry.none,
   [("NAME", .str "Alpha"), ("State", .str "AR"),
    ("Percent_Out", .num 65), ("Total_Out", .num 200)]⟩

/-- ODIN-schema record: county Alpha, AR, 65 percent out. -/
def odinAlpha65 : Feature :=
  ⟨RawGeometry.none,
   [("county", .str "Alpha"), ("state", .str "AR"),
    ("percent_out", .num 65), ("customers_out", .num 200)]⟩

/-- ODIN-schema record for Alpha with a null percent value. -/
def odinAlphaNull : Feature :=
  ⟨RawGeometry.none,
   [("county", .str "Alpha"), ("state", .str "AR"),
    ("percent_out", PVal.null), ("customers_out", .num 999)]⟩

/-- HIFLD-schema record for Alpha with percent 0. -/
def hifldAlpha0 : Feature :=
  ⟨RawGeometry.none,
   [("NAME", .str "Alpha"), ("State", .str "AR"),
    ("Percent_Out", .num 0), ("Total_Out", .num 100)]⟩

/-- Zone predicates of a polygon that does not contain the test point but
whose 0.001-degree point buffer intersects it (a boundary/edge situation);
its bounding box contains the point. -/
def edgePred : ZonePred :=
  ⟨fun _ _ => false, fun _ _ => true, fun _ _ => true⟩

/-- A valid, non-empty geometry carrying `edgePred`. -/
def edgeGeom : Geom :=
  ⟨true, false, edgePred⟩

/-- An outage feature whose county polygon sits at the test point's edge:
buffer-intersecting but not containing. -/
def outageEdgeFeat : Feature :=
  ⟨RawGeometry.parsed edgeGeom edgeGeom,
   [("Percent_Out", .num 70), ("NAME", .str "Pulaski")]⟩

/-- A weather feature with the same edge geometry. -/
def weatherEdgeFeat : Feature :=
  ⟨RawGeometry.parsed edgeGeom edgeGeom,
   [("event", .str "Flood Warning"), ("severity", .str "Severe")]⟩

/-- A geolocated input row with resolved coordinates. -/
def rowP : PointRow :=
  ⟨some "1.2.3.4", some 30, some (-90), some "LittleRock", some "AR"⟩

/-- A geolocated input row whose coordinates failed to resolve. -/
def rowNull : PointRow :=
  ⟨some "10.0.0.1", Option.none, Option.none, some "N/A", some "N/A"⟩

/-- A weather feature with valid geometry and no properties (severity
defaults to Unknown, rank 0). -/
def featValid : Feature :=
  ⟨RawGeometry.parsed edgeGeom edgeGeom, []⟩

/-- A weather feature with null geometry. -/
def featNull : Feature :=
  ⟨RawGeometry.none, []⟩

/-- A weather collection of 50 features of which 1 yields a valid polygon. -/
def wxColl50val1 : List Feature :=
  featValid :: List.replicate 49 featNull

/-- A weather collection of 50 features of which 40 yield valid polygons. -/
def wxColl50val40 : List Feature :=
  List.replicate 40 featValid ++ List.replicate 10 featNull

/-- A weather feature with valid geometry and Minor severity. -/
def minorValidFeat : Feature :=
  ⟨RawGeometry.parsed edgeGeom edgeGeom, [("severity", .str "Minor"), ("event", .str "Frost Advisory")]⟩

/-- A weather zone whose polygon only buffer-intersects the test point. -/
def wzEdge : WZone :=
  { pred := edgePred, desc := "Flood Warning (Severe)", severity := .str "Severe"
    raw_props := [("event", .str "Flood Warning"), ("severity", .str "Severe")] }

/-! Helper lemmas about property maps and the outage merge. -/

lemma lookup_pset_self (p : Props) (k : String) (v : PVal) :
    (pset p k v).lookup k = some v := by
  induction p with
  | nil => simp [pset]
  | cons kv rest ih =>
      by_cases h : kv.1 = k
      · simp [pset, h]
      · simp only [pset]
        rw [if_neg h]
        have : (k == kv.1) = false := by
          simp [Ne.symm h]
        simp [List.lookup, this, ih]

lemma lookup_pset_ne (p : Props) (k k' : String) (v : PVal) (h : k' ≠ k) :
    (pset p k' v).lookup k = p.lookup k := by
  have h0 : (k == k') = false := by simp [Ne.symm h]
  induction p with
  | nil => simp [pset, List.lookup, h0]
  | cons kv rest ih =>
      by_cases hk : kv.1 = k'
      · simp only [pset]
        rw [if_pos hk]
        have h1 : (k == k') = false := by simp [Ne.symm h]
        have h2 : (k == kv.1) = false := by simp [hk, Ne.symm h]
        simp [List.lookup, h1, h2]
      · simp only [pset]
        rw [if_neg hk]
        simp [List.lookup, ih]

lemma pgetD_pset_self (p : Props) (k : String) (v d : PVal) :
    pgetD (pset p k v) k d = v := by
  simp [pgetD, lookup_pset_self]

lemma pgetD_pset_ne (p : Props) (k k' : String) (v d : PVal) (h : k' ≠ k) :
    pgetD (pset p k' v) k d = pgetD p k d := by
  simp [pgetD, lookup_pset_ne p k k' v h]

/-- The two-record cross-source merge: a single HIFLD record and a single
ODIN record sharing the natural key merge into one record, updated exactly
when the ODIN percent is strictly larger. -/
lemma mergePair_eq (hg og : RawGeometry) (hp op : Props)
    (hkey : countyKeyO op = countyKeyH hp) :
    fetch_power_outages [⟨hg, hp⟩] [⟨og, op⟩] =
      if numOrZero (pgetD hp "Percent_Out" (.num 0)) <
          numOrZero (pgetD op "percent_out" (.num 0)) then
        [⟨hg, pset (pset hp "Percent_Out" (.num (numOrZero (pgetD op "percent_out" (.num 0)))))
            "Total_Out" (odinTotalOut op hp)⟩]
      else [⟨hg, hp⟩] := by
  unfold fetch_power_outages
  simp only [List.foldl_cons, List.foldl_nil]
  have h1 : addHifld ([], []) ⟨hg, hp⟩ = ([⟨hg, hp⟩], [countyKeyH hp]) := rfl
  rw [h1]
  have hc : (([countyKeyH hp] : List String).contains
      (countyKeyO ((⟨og, op⟩ : Feature)).properties)) = true := by
    show ([countyKeyH hp] : List String).contains (countyKeyO op) = true
    rw [hkey]
    simp [List.contains]
  have h2 : addOdin ([⟨hg, hp⟩], [countyKeyH hp]) ⟨og, op⟩ =
      (odinUpdate [⟨hg, hp⟩] (countyKeyO op) op, [countyKeyH hp]) := by
    simp only [addOdin]
    rw [if_pos hc]
  rw [h2]
  show odinUpdate [⟨hg, hp⟩] (countyKeyO op) op = _
  simp only [odinUpdate]
  rw [if_pos hkey.symm]

/-- The HIFLD pass appends every feature when their keys are fresh and
pairwise distinct. -/
lemma foldl_addHifld_of_nodup :
    ∀ (fs : List Feature) (A : List Feature) (S : List String),
      (∀ f ∈ fs, countyKeyH f.properties ∉ S) →
      ((fs.map fun f => countyKeyH f.properties)).Nodup →
      fs.foldl addHifld (A, S) =
        (A ++ fs, S ++ fs.map fun f => countyKeyH f.properties)
  | [], A, S, _, _ => by simp
  | f :: fs, A, S, hdisj, hnod => by
      have hfresh : countyKeyH f.properties ∉ S := hdisj f (by simp)
      have hstep : addHifld (A, S) f = (A ++ [f], S ++ [countyKeyH f.properties]) := by
        simp only [addHifld]
        rw [if_neg]
        simp only [List.contains]
        intro hc
        exact hfresh (List.elem_iff.mp hc)
      rw [List.foldl_cons, hstep,
        foldl_addHifld_of_nodup fs (A ++ [f]) (S ++ [countyKeyH f.properties]) ?_ ?_]
      · simp
      · intro g hg
        simp only [List.mem_append, List.mem_singleton]
        rintro (hgS | hgf)
        · exact hdisj g (by simp [hg]) hgS
        · have : countyKeyH g.properties ∈ fs.map fun f => countyKeyH f.properties :=
            List.mem_map_of_mem _ hg
          rw [hgf] at this
          simp only [List.map_cons, List.nodup_cons] at hnod
          exact hnod.1 this
      · simp only [List.map_cons, List.nodup_cons] at hnod
        exact hnod.2

/-- The ODIN inner scan leaves the stored list unchanged when no stored
record with the key has a strictly smaller percent value. -/
lemma odinUpdate_eq_of_le :
    ∀ (l : List Feature) (key : String) (p : Props),
      (∀ f ∈ l, countyKeyH f.properties = key →
        numOrZero (pgetD p "percent_out" (.num 0)) ≤
          numOrZero (pgetD f.properties "Percent_Out" (.num 0))) →
      odinUpdate l key p = l
  | [], _, _, _ => rfl
  | ex :: rest, key, p, h => by
      simp only [odinUpdate]
      by_cases hk : countyKeyH ex.properties = key
      · rw [if_pos hk, if_neg]
        exact not_lt.mpr (h ex (by simp) hk)
      · rw [if_neg hk, odinUpdate_eq_of_le rest key p]
        intro f hf
        exact h f (by simp [hf])

/-- The ODIN pass is the identity when every incoming key was already seen
and every inner scan is a no-op. -/
lemma foldl_addOdin_noop :
    ∀ (os : List Feature) (A : List Feature) (S : List String),
      (∀ g ∈ os, countyKeyO g.properties ∈ S) →
      (∀ g ∈ os, odinUpdate A (countyKeyO g.properties) g.properties = A) →
      os.foldl addOdin (A, S) = (A, S)
  | [], _, _, _, _ => rfl
  | g :: os, A, S, hseen, hupd => by
      have hstep : addOdin (A, S) g = (A, S) := by
        simp only [addOdin]
        rw [if_pos, hupd g (by simp)]
        simp only [List.contains]
        exact List.elem_iff.mpr (hseen g (by simp))
      rw [List.foldl_cons, hstep, foldl_addOdin_noop os A S
        (fun x hx => hseen x (by simp [hx])) (fun x hx => hupd x (by simp [hx]))]

/-- `sorted(set(..))` output is sorted. -/
lemma sortedDedupHaz_pairwise (l : List String) :
    (sortedDedupHaz l).Pairwise (· ≤ ·) := by
  have h : (l.dedup.mergeSort (fun a b => decide (a ≤ b))).Pairwise
      (fun a b => (decide (a ≤ b) : Bool) = true) :=
    List.sorted_mergeSort
      (fun a b c hab hbc => by
        simp only [decide_eq_true_eq] at hab hbc ⊢
        exact le_trans hab hbc)
      (fun a b => by
        simp only [Bool.or_eq_true, decide_eq_true_eq]
        exact le_total a b)
      l.dedup
  exact h.imp (fun hab => by simpa using hab)

/-- `sorted(set(..))` output has no duplicates. -/
lemma sortedDedupHaz_nodup (l : List String) : (sortedDedupHaz l).Nodup :=
  ((List.mergeSort_perm l.dedup _).symm).nodup (List.nodup_dedup l)

/-- `sorted(set(..))` depends only on the multiset of inputs. -/
lemma sortedDedupHaz_perm (l1 l2 : List String) (h : l1.Perm l2) :
    sortedDedupHaz l1 = sortedDedupHaz l2 := by
  haveI : IsAntisymm String (· ≤ ·) := ⟨fun a b h1 h2 => le_antisymm h1 h2⟩
  exact List.eq_of_perm_of_sorted
    ((List.mergeSort_perm l1.dedup _).trans
      ((h.dedup).trans (List.mergeSort_perm l2.dedup _).symm))
    (sortedDedupHaz_pairwise l1) (sortedDedupHaz_pairwise l2)

/-- The joined hazard string depends only on the multiset of hazards. -/
lemma joinHaz_perm (l1 l2 : List String) (h : l1.Perm l2) :
    joinHaz l1 = joinHaz l2 := by
  unfold joinHaz
  by_cases h1 : l1 = []
  · subst h1
    rw [h.symm.eq_nil]
  · have h2 : l2 ≠ [] := fun hh => h1 (by rw [hh] at h; exact h.eq_nil)
    rw [if_neg h1, if_neg h2, sortedDedupHaz_perm l1 l2 h]

/-- A weather match exists iff some zone passes the candidate test and the
containment-or-buffer test. -/
lemma weatherHazards_ne_nil_iff (w : List WZone) (la lo : ℚ) :
    weatherHazards w la lo ≠ [] ↔
      ∃ z ∈ w, z.pred.bboxContains la lo = true ∧
        (z.pred.containsP la lo = true ∨ z.pred.intersectsBuf la lo = true) := by
  unfold weatherHazards
  simp only [ne_eq, List.map_eq_nil_iff, List.filter_eq_nil_iff, not_forall]
  simp [Bool.and_eq_true, Bool.or_eq_true]
  constructor
  · rintro ⟨x, hb, hm, himp⟩
    refine ⟨x, hm, hb, ?_⟩
    cases hcp : x.pred.containsP la lo
    · exact Or.inr (himp hcp)
    · exact Or.inl rfl
  · rintro ⟨z, hm, hb, hor⟩
    refine ⟨z, hb, hm, fun hcp => ?_⟩
    rcases hor with hc | hi
    · rw [hcp] at hc
      cases hc
    · exact hi

/-- An outage/earthquake match exists iff some zone passes the candidate
test and plain containment. -/
lemma containHazards_ne_nil_iff (zs : List Zone) (la lo : ℚ) :
    containHazards zs la lo ≠ [] ↔
      ∃ z ∈ zs, z.pred.bboxContains la lo = true ∧ z.pred.containsP la lo = true := by
  unfold containHazards
  simp only [ne_eq, List.map_eq_nil_iff, List.filter_eq_nil_iff, not_forall]
  simp [Bool.and_eq_true]
  constructor
  · rintro ⟨x, hb, hm, hc⟩
    exact ⟨x, hm, hb, hc⟩
  · rintro ⟨z, hm, hb, hc⟩
    exact ⟨z, hb, hm, hc⟩

/-- Reduction of the per-point analysis for a resolved coordinate pair. -/
lemma analyzePoint_resolved (w : List WZone) (o q : List Zone) (uf : Bool)
    (orc : ℚ → ℚ → List String) (row : PointRow) (la lo : ℚ)
    (hla : row.lat = some la) (hlo : row.lon = some lo) :
    analyzePoint w o q uf orc row =
      (let ph := polygonHazards w o q la lo
       if uf && ph.isEmpty then
        let pa := orc la lo
        ({ ip := row.ip, lat := some la, lon := some lo
           city := row.city, region := row.region
           is_at_risk := !(ph ++ pa).isEmpty
           risk_details := joinHaz (ph ++ pa)
           check_method := if pa.isEmpty then "polygon" else "point-api" }, true)
       else
        ({ ip := row.ip, lat := some la, lon := some lo
           city := row.city, region := row.region
           is_at_risk := !ph.isEmpty
           risk_details := joinHaz ph
           check_method := "polygon" }, false)) := by
  unfold analyzePoint
  rw [hla, hlo]

/-- Partition bookkeeping of the weather polygon-building pass. -/
lemma buildWeatherPolys_partition (m : ℕ) (e : Bool) :
    ∀ fs : List Feature,
      (buildWeatherPolys m e fs).2.1.total_features =
          (buildWeatherPolys m e fs).2.1.null_geometry +
          (buildWeatherPolys m e fs).2.2.filtered_out +
          (buildWeatherPolys m e fs).2.1.valid_polygons +
          (buildWeatherPolys m e fs).2.1.parse_errors ∧
      (buildWeatherPolys m e fs).2.1.valid_polygons =
          (buildWeatherPolys m e fs).1.length ∧
      (buildWeatherPolys m e fs).2.2.total_alerts =
          (buildWeatherPolys m e fs).2.2.passed_filter +
          (buildWeatherPolys m e fs).2.2.filtered_out
  | [] => by simp [buildWeatherPolys]
  | f :: fs => by
      obtain ⟨ih1, ih2, ih3⟩ := buildWeatherPolys_partition m e fs
      cases h : classifyFeature m e f <;>
        simp only [buildWeatherPolys, h, List.length_cons] <;>
        exact ⟨by omega, by omega, by omega⟩

/-- C1: the point-API fallback is active iff the fallback flag is on, the
weather collection is non-empty, and the valid-polygon ratio is strictly
below 0.10; with fallback enabled, 1 valid of 50 activates it and 40 valid
of 50 does not. -/
theorem C1_coverage_fallback :
    (∀ (enable : Bool) (gs : GeomStats),
      usePointFallback enable gs = true ↔
        (enable = true ∧ 0 < gs.total_features ∧
          (gs.valid_polygons : ℚ) / (gs.total_features : ℚ) < 1 / 10)) ∧
    usePointFallback true (buildWeatherPolys 0 false wxColl50val1).2.1 = true ∧
    usePointFallback true (buildWeatherPolys 0 false wxColl50val40).2.1 = false := by
  refine ⟨?_, ?_, ?_⟩
  · intro enable gs
    unfold usePointFallback
    simp only [Bool.and_eq_true, decide_eq_true_eq]
    constructor
    · rintro ⟨⟨he, hlt⟩, hpos⟩
      refine ⟨he, hpos, ?_⟩
      have ht : (0 : ℚ) < (gs.total_features : ℚ) := by exact_mod_cast hpos
      rw [div_lt_iff ht]
      linarith
    · rintro ⟨he, hpos, hdiv⟩
      have ht : (0 : ℚ) < (gs.total_features : ℚ) := by exact_mod_cast hpos
      rw [div_lt_iff ht] at hdiv
      exact ⟨⟨he, by linarith⟩, hpos⟩
  · rw [show (buildWeatherPolys 0 false wxColl50val1).2.1 = ⟨50, 1, 49, 0⟩ from rfl]
    simp only [usePointFallback]
    norm_num
  · rw [show (buildWeatherPolys 0 false wxColl50val40).2.1 = ⟨50, 40, 10, 0⟩ from rfl]
    simp only [usePointFallback]
    norm_num

/-- C4: severity ranks are Unknown=0, Minor=1, Moderate=2, Severe=3,
Extreme=4 with unrecognized or missing labels ranking 0, and a feature is
admitted iff its rank is not below the minimum and it is not excluded as a
low-priority event; a Minor alert is rejected at minimum rank 2 and
admitted at minimum rank 0. -/
theorem C4_severity_filter :
    (∀ (props : Props) (min_rank : ℕ) (excl : Bool),
      passes_severity_threshold props min_rank excl = true ↔
        (min_rank ≤ get_severity_rank (pgetD props "severity" (.str "Unknown")) ∧
         ¬(excl = true ∧ eventInLowPriority (pgetD props "event" (.str "")) = true))) ∧
    get_severity_rank (.str "Unknown") = 0 ∧
    get_severity_rank (.str "Minor") = 1 ∧
    get_severity_rank (.str "Moderate") = 2 ∧
    get_severity_rank (.str "Severe") = 3 ∧
    get_severity_rank (.str "Extreme") = 4 ∧
    get_severity_rank (.str "Elevated") = 0 ∧
    get_severity_rank PVal.null = 0 ∧
    get_severity_rank (pgetD [] "severity" (.str "Unknown")) = 0 ∧
    passes_severity_threshold [("severity", .str "Minor")] 2 false = false ∧
    passes_severity_threshold [("severity", .str "Minor")] 0 false = true := by
  refine ⟨?_, rfl, rfl, rfl, rfl, rfl, rfl, rfl, rfl, rfl, rfl⟩
  intro props min_rank excl
  unfold passes_severity_threshold
  dsimp only
  split_ifs with h1 h2
  · simp only [false_iff]
    rintro ⟨hle, _⟩
    omega
  · simp only [false_iff]
    rintro ⟨_, hnB⟩
    exact hnB (by simpa using h2)
  · simp only [true_iff]
    refine ⟨by omega, fun hB => h2 (by simp [hB.1, hB.2])⟩

/-- C9: every weather feature is counted in exactly one of the four buckets
(null geometry, severity-filtered, valid polygon, parse error), so the
buckets partition the total; the valid-polygon count equals the zone-list
length and depends on the severity threshold: the same Minor-severity
feature yields 1 valid polygon at threshold 0 but 0 valid polygons (1
filtered out) at threshold 2. -/
theorem C9_stats_partition (min_severity_rank : ℕ) (exclude_low_priority : Bool)
    (features : List Feature) :
    ((buildWeatherPolys min_severity_rank exclude_low_priority features).2.1.total_features =
      (buildWeatherPolys min_severity_rank exclude_low_priority features).2.1.null_geometry +
      (buildWeatherPolys min_severity_rank exclude_low_priority features).2.2.filtered_out +
      (buildWeatherPolys min_severity_rank exclude_low_priority features).2.1.valid_polygons +
      (buildWeatherPolys min_severity_rank exclude_low_priority features).2.1.parse_errors) ∧
    (buildWeatherPolys min_severity_rank exclude_low_priority features).2.1.valid_polygons =
      (buildWeatherPolys min_severity_rank exclude_low_priority features).1.length ∧
    (buildWeatherPolys 0 false [minorValidFeat]).2.1.valid_polygons = 1 ∧
    (buildWeatherPolys 2 false [minorValidFeat]).2.1.valid_polygons = 0 ∧
    (buildWeatherPolys 2 false [minorValidFeat]).2.2.filtered_out = 1 := by
  obtain ⟨h1, h2, _⟩ :=
    buildWeatherPolys_partition min_severity_rank exclude_low_priority features
  exact ⟨h1, h2, rfl, rfl, rfl⟩

/-- C3 counterexample: two records in the first (HIFLD) source share the
key Alpha_AR with percents 40 and 65; the merged output keeps the
first-seen 40-percent record and drops the 65-percent one, so the merged
percent is not the numerically larger of the two. -/
theorem C3_counterexample :
    fetch_power_outages [hifldAlpha40, hifldAlpha65] [] = [hifldAlpha40] ∧
    (fetch_power_outages [hifldAlpha40, hifldAlpha65] []).map
      (fun f => pgetD f.properties "Percent_Out" (.num 0)) = [.num 40] :=
  ⟨rfl, rfl⟩

/-- C3 amended: for a HIFLD record and an ODIN record sharing the natural
key, the merge yields exactly one record whose percent is the larger of
the two effective percents and whose customer count comes from the ODIN
record exactly when its percent is strictly larger; in particular Alpha at
40 percent (HIFLD) merged with Alpha at 65 percent (ODIN) reports 65.
(Duplicate keys within the HIFLD source itself keep the first-seen record,
per the counterexample.) -/
theorem C3_merge_max_amended (hg og : RawGeometry) (hp op : Props)
    (hkey : countyKeyO op = countyKeyH hp) :
    (fetch_power_outages [⟨hg, hp⟩] [⟨og, op⟩]).length = 1 ∧
    (fetch_power_outages [⟨hg, hp⟩] [⟨og, op⟩]).map
        (fun f => numOrZero (pgetD f.properties "Percent_Out" (.num 0))) =
      [max (numOrZero (pgetD hp "Percent_Out" (.num 0)))
           (numOrZero (pgetD op "percent_out" (.num 0)))] ∧
    (fetch_power_outages [⟨hg, hp⟩] [⟨og, op⟩]).map
        (fun f => pget f.properties "Total_Out") =
      [if numOrZero (pgetD hp "Percent_Out" (.num 0)) <
            numOrZero (pgetD op "percent_out" (.num 0))
        then odinTotalOut op hp else pget hp "Total_Out"] ∧
    (fetch_power_outages [hifldAlpha40] [odinAlpha65]).map
        (fun f => pgetD f.properties "Percent_Out" (.num 0)) = [.num 65] := by
  have hmp := mergePair_eq hg og hp op hkey
  by_cases hlt : numOrZero (pgetD hp "Percent_Out" (.num 0)) <
      numOrZero (pgetD op "percent_out" (.num 0))
  · rw [hmp, if_pos hlt]
    refine ⟨rfl, ?_, ?_, rfl⟩
    · simp only [List.map_cons, List.map_nil]
      congr 1
      rw [pgetD_pset_ne _ _ _ _ _ (by decide), pgetD_pset_self]
      exact (max_eq_right (le_of_lt hlt)).symm
    · simp only [List.map_cons, List.map_nil]
      congr 1
      rw [if_pos hlt]
      unfold pget
      rw [pgetD_pset_self]
  · rw [hmp, if_neg hlt]
    refine ⟨rfl, ?_, ?_, rfl⟩
    · simp only [List.map_cons, List.map_nil]
      congr 1
      exact (max_eq_left (not_lt.mp hlt)).symm
    · simp only [List.map_cons, List.map_nil]
      congr 1
      rw [if_neg hlt]

/-- Witness for the amended C3 at the Alpha 40/65 example. -/
theorem C3_merge_max_amended_witness :
    (fetch_power_outages [hifldAlpha40] [odinAlpha65]).length = 1 ∧
    (fetch_power_outages [hifldAlpha40] [odinAlpha65]).map
        (fun f => numOrZero (pgetD f.properties "Percent_Out" (.num 0))) =
      [max (numOrZero (pgetD hifldAlpha40.properties "Percent_Out" (.num 0)))
           (numOrZero (pgetD odinAlpha65.properties "percent_out" (.num 0)))] ∧
    (fetch_power_outages [hifldAlpha40] [odinAlpha65]).map
        (fun f => pget f.properties "Total_Out") =
      [if numOrZero (pgetD hifldAlpha40.properties "Percent_Out" (.num 0)) <
            numOrZero (pgetD odinAlpha65.properties "percent_out" (.num 0))
        then odinTotalOut odinAlpha65.properties hifldAlpha40.properties
        else pget hifldAlpha40.properties "Total_Out"] ∧
    (fetch_power_outages [hifldAlpha40] [odinAlpha65]).map
        (fun f => pgetD f.properties "Percent_Out" (.num 0)) = [.num 65] :=
  C3_merge_max_amended RawGeometry.none RawGeometry.none
    hifldAlpha40.properties odinAlpha65.properties rfl

/-- C10: when the ODIN record's effective percent (missing/null read as 0)
is not strictly larger than the stored HIFLD record's, the stored record
is kept entirely unchanged. -/
theorem C10_merge_tie_keeps_first (hg og : RawGeometry) (hp op : Props)
    (hkey : countyKeyO op = countyKeyH hp)
    (hle : numOrZero (pgetD op "percent_out" (.num 0)) ≤
      numOrZero (pgetD hp "Percent_Out" (.num 0))) :
    fetch_power_outages [⟨hg, hp⟩] [⟨og, op⟩] = [⟨hg, hp⟩] := by
  rw [mergePair_eq hg og hp op hkey, if_neg (not_lt.mpr hle)]

/-- Witness for C10: an ODIN record with a null percent (effective 0) ties
a stored record with percent 0, and the stored record survives unchanged. -/
theorem C10_merge_tie_keeps_first_witness :
    fetch_power_outages [hifldAlpha0] [odinAlphaNull] = [hifldAlpha0] :=
  C10_merge_tie_keeps_first RawGeometry.none RawGeometry.none
    hifldAlpha0.properties odinAlphaNull.properties rfl (le_refl 0)

/-- C7 counterexample: feeding the same one-record collection to both
source slots does not reproduce the collection: the record is stored once
by the HIFLD pass (under its HIFLD-schema key) and appended again by the
ODIN pass (under its ODIN-schema key), giving two records instead of the
single record that merging the collection alone gives. -/
theorem C7_counterexample :
    fetch_power_outages [odinAlpha65] [] = [odinAlpha65] ∧
    (fetch_power_outages [odinAlpha65] [odinAlpha65]).length = 2 :=
  ⟨rfl, rfl⟩

/-- C7 amended: self-merge idempotence holds schema-wise: a collection of
entities with pairwise-distinct natural keys, rendered in the HIFLD schema
for the first source and in the ODIN schema for the second, merges to
exactly its HIFLD rendering — no duplicated entities and no value
changes. -/
theorem C7_merge_self_amended (es : List OutageEntity)
    (hkeys : (es.map entityKey).Nodup) :
    fetch_power_outages (es.map renderHifld) [] = es.map renderHifld ∧
    fetch_power_outages (es.map renderHifld) (es.map renderOdin) = es.map renderHifld := by
  have hmap : (es.map renderHifld).map (fun f => countyKeyH f.properties) =
      es.map entityKey := by
    rw [List.map_map]
    rfl
  have hnodH : ((es.map renderHifld).map fun f => countyKeyH f.properties).Nodup := by
    rw [hmap]
    exact hkeys
  have hphase1 : (es.map renderHifld).foldl addHifld ([], []) =
      (es.map renderHifld, es.map entityKey) := by
    rw [foldl_addHifld_of_nodup (es.map renderHifld) [] [] (by simp) hnodH]
    rw [hmap]
    simp
  have hinj := List.inj_on_of_nodup_map hkeys
  constructor
  · unfold fetch_power_outages
    rw [List.foldl_nil, hphase1]
  · unfold fetch_power_outages
    rw [hphase1, foldl_addOdin_noop (es.map renderOdin) (es.map renderHifld)
      (es.map entityKey) ?_ ?_]
    · intro g hg
      obtain ⟨e, he, rfl⟩ := List.mem_map.mp hg
      show countyKeyO (renderOdin e).properties ∈ es.map entityKey
      exact List.mem_map_of_mem _ he
    · intro g hg
      obtain ⟨e, he, rfl⟩ := List.mem_map.mp hg
      apply odinUpdate_eq_of_le
      intro f hf hkf
      obtain ⟨e2, he2, rfl⟩ := List.mem_map.mp hf
      have hk2 : entityKey e2 = entityKey e := hkf
      have he2e : e2 = e := hinj he2 he hk2
      subst he2e
      exact le_refl _

/-- A two-entity collection with distinct keys. -/
def esAB : List OutageEntity :=
  [⟨"Alpha", "AR", 40, 100⟩, ⟨"Beta", "TX", 12, 5⟩]

/-- Witness for the amended C7 on a concrete two-entity collection. -/
theorem C7_merge_self_amended_witness :
    fetch_power_outages (esAB.map renderHifld) [] = esAB.map renderHifld ∧
    fetch_power_outages (esAB.map renderHifld) (esAB.map renderOdin) =
      esAB.map renderHifld :=
  C7_merge_self_amended esAB (by decide)

/-- Splitting the polygon-phase hazard list into its three category parts. -/
lemma polygonHazards_eq_nil_iff (w : List WZone) (o q : List Zone) (la lo : ℚ) :
    polygonHazards w o q la lo = [] ↔
      (weatherHazards w la lo = [] ∧ containHazards o la lo = [] ∧
        containHazards q la lo = []) := by
  unfold polygonHazards
  simp [List.append_eq_nil, and_assoc]

/-- C6: a point whose latitude or longitude failed to resolve is recorded
not-at-risk with no hazards, no point query is issued for it, and its null
coordinates are kept in the output record (and in general the output always
carries the input coordinates, so a null-coordinate record stays
distinguishable from an assessed-and-clear one). -/
theorem C6_unresolved_point (w : List WZone) (o q : List Zone) (uf : Bool)
    (orc : ℚ → ℚ → List String) (row : PointRow)
    (h : row.lat = Option.none ∨ row.lon = Option.none) :
    analyzePoint w o q uf orc row =
      ({ ip := row.ip, lat := row.lat, lon := row.lon
         city := row.city, region := row.region
         is_at_risk := false, risk_details := "None", check_method := "polygon" }, false) ∧
    (∀ row2 : PointRow, (analyzePoint w o q uf orc row2).1.lat = row2.lat ∧
      (analyzePoint w o q uf orc row2).1.lon = row2.lon) := by
  constructor
  · obtain ⟨ip, rlat, rlon, rc, rr⟩ := row
    rcases h with h | h
    · replace h : rlat = Option.none := h
      subst h
      cases rlon <;> rfl
    · replace h : rlon = Option.none := h
      subst h
      cases rlat <;> rfl
  · intro row2
    obtain ⟨ip2, rlat2, rlon2, rc2, rr2⟩ := row2
    cases rlat2 with
    | none => exact ⟨rfl, rfl⟩
    | some a =>
        cases rlon2 with
        | none => exact ⟨rfl, rfl⟩
        | some b =>
            simp only [analyzePoint]
            split <;> exact ⟨rfl, rfl⟩

/-- Witness for C6: a concrete unresolved row keeps its null coordinates
and a clear, unassessed verdict, with no point query issued. -/
theorem C6_unresolved_point_witness :
    analyzePoint [wzEdge] [] [] true (fun _ _ => ["Winter Storm Warning (Moderate)"]) rowNull =
      ({ ip := some "10.0.0.1", lat := Option.none, lon := Option.none
         city := some "N/A", region := some "N/A"
         is_at_risk := false, risk_details := "None", check_method := "polygon" }, false) ∧
    (∀ row2 : PointRow,
      (analyzePoint [wzEdge] [] [] true
        (fun _ _ => ["Winter Storm Warning (Moderate)"]) row2).1.lat = row2.lat ∧
      (analyzePoint [wzEdge] [] [] true
        (fun _ _ => ["Winter Storm Warning (Moderate)"]) row2).1.lon = row2.lon) :=
  C6_unresolved_point [wzEdge] [] [] true
    (fun _ _ => ["Winter Storm Warning (Moderate)"]) rowNull (Or.inl rfl)

/-- C5: for a resolved point the final record joins exactly the collected
hazards after set-deduplication and lexicographic sorting (so the string is
invariant under any permutation of the collection order), and the at-risk
flag is true iff the collected hazard list is non-empty. -/
theorem C5_result_dedup_sorted (w : List WZone) (o q : List Zone) (uf : Bool)
    (orc : ℚ → ℚ → List String) (row : PointRow) (la lo : ℚ)
    (hla : row.lat = some la) (hlo : row.lon = some lo) :
    (analyzePoint w o q uf orc row).1.risk_details =
        joinHaz (collectedHazards w o q uf orc la lo) ∧
    ((analyzePoint w o q uf orc row).1.is_at_risk = true ↔
        collectedHazards w o q uf orc la lo ≠ []) ∧
    (∀ l : List String, l.Perm (collectedHazards w o q uf orc la lo) →
        joinHaz l = joinHaz (collectedHazards w o q uf orc la lo)) ∧
    (sortedDedupHaz (collectedHazards w o q uf orc la lo)).Nodup ∧
    (sortedDedupHaz (collectedHazards w o q uf orc la lo)).Pairwise (· ≤ ·) := by
  rw [analyzePoint_resolved w o q uf orc row la lo hla hlo]
  unfold collectedHazards
  by_cases hc : (uf && (polygonHazards w o q la lo).isEmpty) = true
  · simp only [hc, if_true]
    refine ⟨by trivial, ?_, fun l hl => joinHaz_perm _ _ hl, sortedDedupHaz_nodup _,
      sortedDedupHaz_pairwise _⟩
    simp [List.isEmpty_iff]
  · have hcf : (uf && (polygonHazards w o q la lo).isEmpty) = false := by
      revert hc
      cases uf && (polygonHazards w o q la lo).isEmpty <;> simp
    simp only [hcf, Bool.false_eq_true, if_false]
    refine ⟨by trivial, ?_, fun l hl => joinHaz_perm _ _ hl, sortedDedupHaz_nodup _,
      sortedDedupHaz_pairwise _⟩
    simp [List.isEmpty_iff]

/-- Witness for C5 at a concrete resolved point with one weather match. -/
theorem C5_result_dedup_sorted_witness :
    (analyzePoint [wzEdge] [] [] false (fun _ _ => []) rowP).1.risk_details =
        joinHaz (collectedHazards [wzEdge] [] [] false (fun _ _ => []) 30 (-90)) ∧
    ((analyzePoint [wzEdge] [] [] false (fun _ _ => []) rowP).1.is_at_risk = true ↔
        collectedHazards [wzEdge] [] [] false (fun _ _ => []) 30 (-90) ≠ []) ∧
    (∀ l : List String, l.Perm (collectedHazards [wzEdge] [] [] false (fun _ _ => []) 30 (-90)) →
        joinHaz l = joinHaz (collectedHazards [wzEdge] [] [] false (fun _ _ => []) 30 (-90))) ∧
    (sortedDedupHaz (collectedHazards [wzEdge] [] [] false (fun _ _ => []) 30 (-90))).Nodup ∧
    (sortedDedupHaz (collectedHazards [wzEdge] [] [] false
        (fun _ _ => []) 30 (-90))).Pairwise (· ≤ ·) :=
  C5_result_dedup_sorted [wzEdge] [] [] false (fun _ _ => []) rowP 30 (-90) rfl rfl

/-- C8: for a resolved point the remote point query is issued exactly when
the fallback policy is active and no polygon matched; the verdict method is
point-api exactly when that query returned a non-empty list (and then the
point is at risk), and polygon in every other case; a failed or non-200
point query yields the empty alert list. -/
theorem C8_fallback_query (w : List WZone) (o q : List Zone) (uf : Bool)
    (orc : ℚ → ℚ → List String) (row : PointRow) (la lo : ℚ)
    (hla : row.lat = some la) (hlo : row.lon = some lo) :
    ((analyzePoint w o q uf orc row).2 = true ↔
      (uf = true ∧ polygonHazards w o q la lo = [])) ∧
    ((analyzePoint w o q uf orc row).1.check_method = "point-api" ↔
      (uf = true ∧ polygonHazards w o q la lo = [] ∧ orc la lo ≠ [])) ∧
    ((analyzePoint w o q uf orc row).1.check_method = "point-api" →
      (analyzePoint w o q uf orc row).1.is_at_risk = true) ∧
    ((analyzePoint w o q uf orc row).1.check_method = "point-api" ∨
      (analyzePoint w o q uf orc row).1.check_method = "polygon") ∧
    (∀ (mr : ℕ) (ex : Bool), check_point_alerts_nws Option.none mr ex = []) ∧
    (∀ (mr : ℕ) (ex : Bool) (fs : List Feature),
      check_point_alerts_nws (some (404, fs)) mr ex = []) := by
  rw [analyzePoint_resolved w o q uf orc row la lo hla hlo]
  have hne : ("polygon" : String) ≠ "point-api" := by decide
  by_cases hc : (uf && (polygonHazards w o q la lo).isEmpty) = true
  · have hc2 : uf = true ∧ polygonHazards w o q la lo = [] := by
      simpa [List.isEmpty_iff] using hc
    simp only [hc, if_true]
    by_cases hpa : orc la lo = []
    · have hpaE : (orc la lo).isEmpty = true := by simp [hpa]
      simp only [hpaE, if_true]
      refine ⟨by simp [hc2], ?_, ?_, Or.inr (by trivial), fun mr ex => rfl, fun mr ex fs => rfl⟩
      · simp [hne, hpa]
      · intro hcm
        exact absurd hcm hne
    · have hpaE : (orc la lo).isEmpty = false := by
        simpa [List.isEmpty_iff] using hpa
      simp only [hpaE, Bool.false_eq_true, if_false]
      refine ⟨by simp [hc2], by simp [hc2, hpa], ?_, Or.inl (by trivial),
        fun mr ex => rfl, fun mr ex fs => rfl⟩
      intro _
      simp [hc2.2, hpa, List.isEmpty_iff]
  · have hcf : (uf && (polygonHazards w o q la lo).isEmpty) = false := by
      revert hc
      cases uf && (polygonHazards w o q la lo).isEmpty <;> simp
    have hnand : ¬(uf = true ∧ polygonHazards w o q la lo = []) := by
      intro hand
      exact hc (by simp [hand.1, hand.2])
    simp only [hcf, Bool.false_eq_true, if_false]
    refine ⟨by simp [hnand], ?_, ?_, Or.inr (by trivial), fun mr ex => rfl, fun mr ex fs => rfl⟩
    · constructor
      · intro hcm
        exact absurd hcm hne
      · rintro ⟨h1, h2, _⟩
        exact absurd ⟨h1, h2⟩ hnand
    · intro hcm
      exact absurd hcm hne

/-- Witness for C8: a resolved point with no polygon matches and the
fallback active, whose point query returns one alert. -/
theorem C8_fallback_query_witness :
    ((analyzePoint [] [] [] true (fun _ _ => ["Winter Storm Warning (Moderate)"]) rowP).2 = true ↔
      (true = true ∧ polygonHazards [] [] [] 30 (-90) = [])) ∧
    ((analyzePoint [] [] [] true
        (fun _ _ => ["Winter Storm Warning (Moderate)"]) rowP).1.check_method = "point-api" ↔
      (true = true ∧ polygonHazards [] [] [] 30 (-90) = [] ∧
        (fun (_ _ : ℚ) => ["Winter Storm Warning (Moderate)"]) 30 (-90) ≠ [])) ∧
    ((analyzePoint [] [] [] true
        (fun _ _ => ["Winter Storm Warning (Moderate)"]) rowP).1.check_method = "point-api" →
      (analyzePoint [] [] [] true
        (fun _ _ => ["Winter Storm Warning (Moderate)"]) rowP).1.is_at_risk = true) ∧
    ((analyzePoint [] [] [] true
        (fun _ _ => ["Winter Storm Warning (Moderate)"]) rowP).1.check_method = "point-api" ∨
      (analyzePoint [] [] [] true
        (fun _ _ => ["Winter Storm Warning (Moderate)"]) rowP).1.check_method = "polygon") ∧
    (∀ (mr : ℕ) (ex : Bool), check_point_alerts_nws Option.none mr ex = []) ∧
    (∀ (mr : ℕ) (ex : Bool) (fs : List Feature),
      check_point_alerts_nws (some (404, fs)) mr ex = []) :=
  C8_fallback_query [] [] [] true (fun _ _ => ["Winter Storm Warning (Moderate)"]) rowP
    30 (-90) rfl rfl

/-- C2 counterexample: a resolved point whose 0.001-degree buffer
intersects an outage county polygon (without containment, e.g. a point on
the polygon's edge as shapely sees it) is NOT marked at risk — the buffer
tolerance is not applied to the PowerOutage category — while the very same
geometry offered as a Weather zone does mark the point at risk. -/
theorem C2_counterexample :
    (run_impact_analysis [rowP] [] [outageEdgeFeat] [] false 0 false (fun _ _ => [])).1 =
      [{ ip := some "1.2.3.4", lat := some 30, lon := some (-90)
         city := some "LittleRock", region := some "AR"
         is_at_risk := false, risk_details := "None", check_method := "polygon" }] ∧
    (run_impact_analysis [rowP] [weatherEdgeFeat] [] [] false 0 false
      (fun _ _ => [])).1.map (fun r => r.is_at_risk) = [true] :=
  ⟨rfl, rfl⟩

/-- C2 amended: among a category's index candidates, a Weather zone counts
as containing the point when it geometrically contains it OR its
0.001-degree buffer intersects it, while PowerOutage and Earthquake zones
count only by exact containment; the point is at risk iff some zone counts
under its category's rule (or the active fallback query returns alerts). -/
theorem C2_containment_amended (w : List WZone) (o q : List Zone) (uf : Bool)
    (orc : ℚ → ℚ → List String) (row : PointRow) (la lo : ℚ)
    (hla : row.lat = some la) (hlo : row.lon = some lo) :
    (polygonHazards w o q la lo ≠ [] ↔
      ((∃ z ∈ w, z.pred.bboxContains la lo = true ∧
          (z.pred.containsP la lo = true ∨ z.pred.intersectsBuf la lo = true)) ∨
       (∃ z ∈ o, z.pred.bboxContains la lo = true ∧ z.pred.containsP la lo = true) ∨
       (∃ z ∈ q, z.pred.bboxContains la lo = true ∧ z.pred.containsP la lo = true))) ∧
    ((analyzePoint w o q uf orc row).1.is_at_risk = true ↔
      (polygonHazards w o q la lo ≠ [] ∨ (uf = true ∧ orc la lo ≠ []))) := by
  constructor
  · rw [ne_eq, polygonHazards_eq_nil_iff]
    constructor
    · intro h
      rcases not_and_or.mp h with h1 | h23
      · exact Or.inl ((weatherHazards_ne_nil_iff w la lo).mp h1)
      · rcases not_and_or.mp h23 with h2 | h3
        · exact Or.inr (Or.inl ((containHazards_ne_nil_iff o la lo).mp h2))
        · exact Or.inr (Or.inr ((containHazards_ne_nil_iff q la lo).mp h3))
    · rintro (h1 | h2 | h3) ⟨e1, e2, e3⟩
      · exact (weatherHazards_ne_nil_iff w la lo).mpr h1 e1
      · exact (containHazards_ne_nil_iff o la lo).mpr h2 e2
      · exact (containHazards_ne_nil_iff q la lo).mpr h3 e3
  · rw [analyzePoint_resolved w o q uf orc row la lo hla hlo]
    by_cases hc : (uf && (polygonHazards w o q la lo).isEmpty) = true
    · have hc2 : uf = true ∧ polygonHazards w o q la lo = [] := by
        simpa [List.isEmpty_iff] using hc
      simp only [hc, if_true]
      simp [hc2.1, hc2.2, List.isEmpty_iff]
    · have hcf : (uf && (polygonHazards w o q la lo).isEmpty) = false := by
        revert hc
        cases uf && (polygonHazards w o q la lo).isEmpty <;> simp
      simp only [hcf, Bool.false_eq_true, if_false]
      by_cases hph : polygonHazards w o q la lo = []
      · have huf : uf = false := by
          rcases Bool.eq_false_or_eq_true uf with h | h
          · exact absurd (by simp [h, hph]) hc
          · exact h
        simp [hph, huf, List.isEmpty_iff]
      · simp [hph, List.isEmpty_iff]

/-- The outage edge polygon as a built zone. -/
def ozEdge : Zone :=
  { pred := edgePred, desc := "Power Outage: 70% - Pulaski" }

/-- Witness for the amended C2: one weather edge zone and one outage edge
zone at a resolved point; only the weather rule admits the buffer match. -/
theorem C2_containment_amended_witness :
    (polygonHazards [wzEdge] [ozEdge] [] 30 (-90) ≠ [] ↔
      ((∃ z ∈ [wzEdge], z.pred.bboxContains 30 (-90) = true ∧
          (z.pred.containsP 30 (-90) = true ∨ z.pred.intersectsBuf 30 (-90) = true)) ∨
       (∃ z ∈ [ozEdge], z.pred.bboxContains 30 (-90) = true ∧
          z.pred.containsP 30 (-90) = true) ∨
       (∃ z ∈ ([] : List Zone), z.pred.bboxContains 30 (-90) = true ∧
          z.pred.containsP 30 (-90) = true))) ∧
    ((analyzePoint [wzEdge] [ozEdge] [] false (fun _ _ => []) rowP).1.is_at_risk = true ↔
      (polygonHazards [wzEdge] [ozEdge] [] 30 (-90) ≠ [] ∨
        (false = true ∧ (fun (_ _ : ℚ) => ([] : List String)) 30 (-90) ≠ []))) :=
  C2_containment_amended [wzEdge] [ozEdge] [] false (fun _ _ => []) rowP 30 (-90) rfl rfl

end GeoMonitor
